import Mathlib

/-!
Verification development for the Twitchat StreamController plugin's
OBS-WebSocket connection core (`src/services/obs_connection.py` and
`src/services/twitchat.py`), shallowly embedded in Lean 4.

Bytes are modelled as `Nat` values below 256, byte strings as `List Nat`,
machine 32-bit words as `Nat` reduced modulo `2 ^ 32` where overflow matters.
-/

set_option maxRecDepth 4000

/-- Reduce a natural number modulo `2 ^ 32`, the 32-bit word wrap used
throughout SHA-256. -/
def w32 (n : Nat) : Nat := n % 4294967296

/-- Right rotation of a 32-bit word (input assumed below `2 ^ 32`). -/
def rotr32 (n x : Nat) : Nat := x / 2 ^ n + x % 2 ^ n * 2 ^ (32 - n)

/-- Bitwise complement of a 32-bit word. -/
def not32 (x : Nat) : Nat := 4294967295 - x % 4294967296

/-- SHA-256 choice function. -/
def sha256ch (x y z : Nat) : Nat := (x &&& y) ^^^ (not32 x &&& z)

/-- SHA-256 majority function. -/
def sha256maj (x y z : Nat) : Nat := (x &&& y) ^^^ (x &&& z) ^^^ (y &&& z)

/-- SHA-256 big sigma 0. -/
def bsig0 (x : Nat) : Nat := rotr32 2 x ^^^ rotr32 13 x ^^^ rotr32 22 x

/-- SHA-256 big sigma 1. -/
def bsig1 (x : Nat) : Nat := rotr32 6 x ^^^ rotr32 11 x ^^^ rotr32 25 x

/-- SHA-256 small sigma 0. -/
def ssig0 (x : Nat) : Nat := rotr32 7 x ^^^ rotr32 18 x ^^^ x / 2 ^ 3

/-- SHA-256 small sigma 1. -/
def ssig1 (x : Nat) : Nat := rotr32 17 x ^^^ rotr32 19 x ^^^ x / 2 ^ 10

/-- The 64 SHA-256 round constants (FIPS 180-4), written in decimal. -/
def sha256K : List Nat :=
  [1116352408, 1899447441, 3049323471, 3921009573, 961987163, 1508970993,
   2453635748, 2870763221, 3624381080, 310598401, 607225278, 1426881987,
   1925078388, 2162078206, 2614888103, 3248222580, 3835390401, 4022224774,
   264347078, 604807628, 770255983, 1249150122, 1555081692, 1996064986,
   2554220882, 2821834349, 2952996808, 3210313671, 3336571891, 3584528711,
   113926993, 338241895, 666307205, 773529912, 1294757372, 1396182291,
   1695183700, 1986661051, 2177026350, 2456956037, 2730485921, 2820302411,
   3259730800, 3345764771, 3516065817, 3600352804, 4094571909, 275423344,
   430227734, 506948616, 659060556, 883997877, 958139571, 1322822218,
   1537002063, 1747873779, 1955562222, 2024104815, 2227730452, 2361852424,
   2428436474, 2756734187, 3204031479, 3329325298]

/-- Working state of the SHA-256 compression function. -/
structure Hash8 where
  a : Nat
  b : Nat
  c : Nat
  d : Nat
  e : Nat
  f : Nat
  g : Nat
  h : Nat

/-- SHA-256 initial hash value (FIPS 180-4), written in decimal. -/
def sha256H0 : Hash8 :=
  ⟨1779033703, 3144134277, 1013904242, 2773480762,
   1359893119, 2600822924, 528734635, 1541459225⟩

/-- Big-endian byte serialisation of `n` on `k` bytes. -/
def toBytesBE : Nat → Nat → List Nat
  | 0, _ => []
  | k + 1, n => toBytesBE k (n / 256) ++ [n % 256]

/-- Group a byte list into big-endian 32-bit words. -/
def bytesToWords : List Nat → List Nat
  | b0 :: b1 :: b2 :: b3 :: rest =>
      (((b0 * 256 + b1) * 256 + b2) * 256 + b3) :: bytesToWords rest
  | _ => []

/-- Extend the 16-word message schedule by `fuel` further words. -/
def scheduleExtend (ws : List Nat) : Nat → List Nat
  | 0 => ws
  | fuel + 1 =>
      let l := ws.length
      let w := w32 (ssig1 (ws.getD (l - 2) 0) + ws.getD (l - 7) 0 +
                    ssig0 (ws.getD (l - 15) 0) + ws.getD (l - 16) 0)
      scheduleExtend (ws ++ [w]) fuel

/-- One round of the SHA-256 compression function. -/
def compressRound (st : Hash8) (k : Nat) (w : Nat) : Hash8 :=
  let t1 := w32 (st.h + bsig1 st.e + sha256ch st.e st.f st.g + k + w)
  let t2 := w32 (bsig0 st.a + sha256maj st.a st.b st.c)
  ⟨w32 (t1 + t2), st.a, st.b, st.c, w32 (st.d + t1), st.e, st.f, st.g⟩

/-- Process one 64-byte block. -/
def compressBlock (h : Hash8) (block : List Nat) : Hash8 :=
  let ws := scheduleExtend (bytesToWords block) 48
  let f := (sha256K.zip ws).foldl (fun s kw => compressRound s kw.1 kw.2) h
  ⟨w32 (h.a + f.a), w32 (h.b + f.b), w32 (h.c + f.c), w32 (h.d + f.d),
   w32 (h.e + f.e), w32 (h.f + f.f), w32 (h.g + f.g), w32 (h.h + f.h)⟩

/-- SHA-256 padding: append `0x80`, zeros to 56 mod 64, then the 64-bit
big-endian bit length. -/
def padMessage (msg : List Nat) : List Nat :=
  let L := msg.length
  msg ++ (128 :: List.replicate ((119 - L % 64) % 64) 0) ++ toBytesBE 8 (8 * L)

/-- Split a byte list into 64-byte blocks (fuel-based for kernel reduction). -/
def toBlocksAux : Nat → List Nat → List (List Nat)
  | 0, _ => []
  | _, [] => []
  | fuel + 1, l => l.take 64 :: toBlocksAux fuel (l.drop 64)

/-- Split a byte list into 64-byte blocks. -/
def toBlocks (l : List Nat) : List (List Nat) := toBlocksAux l.length l

/-- SHA-256 digest of a byte string, as 32 bytes. -/
def sha256 (msg : List Nat) : List Nat :=
  let f := (toBlocks (padMessage msg)).foldl compressBlock sha256H0
  ([f.a, f.b, f.c, f.d, f.e, f.f, f.g, f.h].map (toBytesBE 4)).flatten

/-- Character of the standard base64 alphabet at index `n < 64`. -/
def b64char (n : Nat) : Nat :=
  if n < 26 then 65 + n
  else if n < 52 then 71 + n
  else if n < 62 then n - 4
  else if n = 62 then 43
  else 47

/-- Standard base64 encoding of a byte string (with `=` padding), as the
ASCII bytes `base64.b64encode` returns. -/
def b64encode : List Nat → List Nat
  | [] => []
  | [b0] => [b64char (b0 / 4), b64char (b0 % 4 * 16), 61, 61]
  | [b0, b1] =>
      [b64char (b0 / 4), b64char (b0 % 4 * 16 + b1 / 16), b64char (b1 % 16 * 4), 61]
  | b0 :: b1 :: b2 :: rest =>
      b64char (b0 / 4) :: b64char (b0 % 4 * 16 + b1 / 16) ::
      b64char (b1 % 16 * 4 + b2 / 64) :: b64char (b2 % 64) :: b64encode rest

/-- UTF-8 encoding of one character (Python `str.encode("utf-8")`,
per code point). -/
def utf8Char (c : Char) : List Nat :=
  let n := c.toNat
  if n < 128 then [n]
  else if n < 2048 then [192 + n / 64, 128 + n % 64]
  else if n < 65536 then [224 + n / 4096, 128 + n / 64 % 64, 128 + n % 64]
  else [240 + n / 262144, 128 + n / 4096 % 64, 128 + n / 64 % 64, 128 + n % 64]

/-- UTF-8 encoding of a string as a byte list (Python `s.encode("utf-8")`). -/
def utf8Encode (s : String) : List Nat := (s.data.map utf8Char).flatten

/-- Decode a list of ASCII bytes back into a string (Python
`bytes.decode("utf-8")` on ASCII data such as base64 output). -/
def asciiDecode (l : List Nat) : String := String.mk (l.map Char.ofNat)

/-- Embedding of `OBSConnectionManager._build_auth_response`
(src/services/obs_connection.py lines 375-384), given the already extracted
`challenge` and `salt` strings:
`secret = sha256((password + salt).utf8)`, `secret_b64 = b64encode(secret)`,
`auth_response = sha256(secret_b64 + challenge.utf8)`, returned base64-encoded
and decoded to a string. -/
def build_auth_response (password salt challenge : String) : String :=
  let secret := sha256 (utf8Encode password ++ utf8Encode salt)
  let secret_b64 := b64encode secret
  let auth_response := sha256 (secret_b64 ++ utf8Encode challenge)
  asciiDecode (b64encode auth_response)

/-- Modelled from the spec's formula for the authentication response:
`base64(SHA256(base64(SHA256(password + salt)) + challenge))`, with the
intermediate secret base64-encoded before the second hash. -/
def specAuthResponse (password salt challenge : String) : String :=
  asciiDecode (b64encode (sha256
    (b64encode (sha256 (utf8Encode password ++ utf8Encode salt)) ++
      utf8Encode challenge)))

/-- JSON values, the shape produced by Python's `json.loads` (numbers are
modelled as integers; no claim depends on float payloads). -/
inductive Json where
  | null : Json
  | bool (b : Bool) : Json
  | num (n : Int) : Json
  | str (s : String) : Json
  | arr (xs : List Json) : Json
  | obj (kvs : List (String × Json)) : Json

/-- Python truthiness of a JSON value (`bool(x)`): `None`, `False`, `0`,
`""`, `[]` and `{ }` (written here as the empty object) are falsy. -/
def Json.truthy : Json → Bool
  | .null => false
  | .bool b => b
  | .num n => n != 0
  | .str s => s != ""
  | .arr xs => !xs.isEmpty
  | .obj kvs => !kvs.isEmpty

/-- First binding of key `k` in an association list, Python `dict.get(k)`
returning `None` as `none`. -/
def pyGet (kvs : List (String × Json)) (k : String) : Option Json :=
  (kvs.find? (fun p => p.1 == k)).map (·.2)

/-- Python `dict.get(k, default)`. -/
def pyGetD (kvs : List (String × Json)) (k : String) (d : Json) : Json :=
  (pyGet kvs k).getD d

/-- Errors raised by the embedded code: Python-level errors plus the
`OBSConnectionError` taxonomy of src/services/obs_connection.py. -/
inductive Err where
  | valueError : Err
  | attributeError : Err
  | connectionError : Err
  | authenticationError : Err
  | notConnected : Err
  | responseTimeout : Err
  | requestError (requestType : String) (status : Json) : Err

/-- Python `x == n` for a JSON value against an integer literal (as in
`payload.get("op") == 7`); note Python booleans compare equal to 0/1. -/
def pyEqInt (x : Option Json) (n : Int) : Bool :=
  match x with
  | some (.num m) => m == n
  | some (.bool b) => (if b then (1 : Int) else 0) == n
  | _ => false

/-- Python attribute access `x.get(k)` on a value expected to be a dict:
raises `AttributeError` when `x` is not a dict. -/
def Json.getAttr (j : Json) (k : String) : Except Err (Option Json) :=
  match j with
  | .obj kvs => .ok (pyGet kvs k)
  | _ => .error .attributeError

/-- Python `x.get(k, default)` on a value expected to be a dict. -/
def Json.getAttrD (j : Json) (k : String) (d : Json) : Except Err Json :=
  match j with
  | .obj kvs => .ok (pyGetD kvs k d)
  | _ => .error .attributeError

/-- Python `x.get(k, default)` where `x` is statically known to be a dict
(total variant used when the source has already ensured dict shape). -/
def jsonGetD (j : Json) (k : String) (d : Json) : Json :=
  match j with
  | .obj kvs => pyGetD kvs k d
  | _ => d

/-- Python `x or default` for an optional JSON argument (`payload or { }`,
`request_data or { }`): a falsy value is replaced by the default. -/
def pyOrElse (x : Option Json) (d : Json) : Json :=
  match x with
  | some v => if v.truthy then v else d
  | none => d

/-- The response registry `self._responses`: a mapping from request id (the
JSON value found under `requestId`) to response payload. Insertion shadows
earlier bindings, matching Python dict assignment observationally. -/
def Registry := List (Json × Json)

/-- Store a response under its request id (`self._responses[request_id] = data`). -/
def regInsert (reg : Registry) (k v : Json) : Registry := (k, v) :: reg

/-- Result of `_handle_message` as far as the response registry is concerned:
the updated registry and whether `notify_all` was called on the condition. -/
structure HandleResult where
  registry : Registry
  notified : Bool

/-- The body shared by the op-7 and op-8 branches of `_handle_message`
(src/services/obs_connection.py lines 309-320, two textually identical
blocks): `request_id = data.get("requestId")` (raising `AttributeError` on a
non-dict `d`), and only a truthy id stores the payload and notifies all
waiters. -/
def handleResponseFrame (data : Json) (reg : Registry) : Except Err HandleResult :=
  match data.getAttr "requestId" with
  | .error e => .error e
  | .ok none => .ok ⟨reg, false⟩
  | .ok (some rid) =>
      if rid.truthy then .ok ⟨regInsert reg rid data, true⟩
      else .ok ⟨reg, false⟩

/-- Embedding of `OBSConnectionManager._handle_message`
(src/services/obs_connection.py lines 292-322), restricted to its effect on
the response registry and condition variable. A non-dict payload raises
`AttributeError` at `payload.get("op")` (there is no surrounding handler in
the source). Ops 0, 2 and 5 never touch the registry; ops 7 and 8 store the
payload under its `requestId` and notify all waiters exactly when that id is
truthy; any other op is logged and ignored. -/
def handle_message (payload : Json) (reg : Registry) : Except Err HandleResult :=
  match payload with
  | .obj kvs =>
      let op := pyGet kvs "op"
      let data := pyGetD kvs "d" (.obj [])
      if pyEqInt op 0 then
        .ok ⟨reg, false⟩
      else if pyEqInt op 2 then
        .ok ⟨reg, false⟩
      else if pyEqInt op 5 then
        match data.getAttr "eventType" with
        | .ok _ => .ok ⟨reg, false⟩
        | .error e => .error e
      else if pyEqInt op 7 then
        handleResponseFrame data reg
      else if pyEqInt op 8 then
        handleResponseFrame data reg
      else
        .ok ⟨reg, false⟩
  | _ => .error .attributeError

/-- One inbound websocket text frame, as seen after `json.loads`: either text
that is not valid JSON (`json.JSONDecodeError`) or a parsed JSON value. -/
inductive Frame where
  | invalidText : Frame
  | parsed (j : Json) : Frame

/-- Embedding of the frame-processing part of
`OBSConnectionManager._receiver_loop` (src/services/obs_connection.py lines
261-290) over a finite list of inbound frames: a `json.JSONDecodeError` is
logged and the loop continues; a parsed payload is passed to
`_handle_message`, which is outside the `try` block, so an error raised
there propagates and kills the receiver thread. -/
def receiver_loop (frames : List Frame) (reg : Registry) : Except Err Registry :=
  match frames with
  | [] => .ok reg
  | .invalidText :: rest => receiver_loop rest reg
  | .parsed j :: rest =>
      match handle_message j reg with
      | .ok r => receiver_loop rest r.registry
      | .error e => .error e

/-- Outcome of `_wait_for_response`: a timeout error or the popped entry. -/
inductive WaitOutcome where
  | timeout : WaitOutcome
  | found (data : Json) : WaitOutcome

/-- Embedding of `OBSConnectionManager._wait_for_response`
(src/services/obs_connection.py lines 351-365) as a loop over a trace of
wakeups. Each trace element is the wake time `t` (the initial iteration
included) paired with the registry lookup `self._responses.get(request_id)`
at that moment. Faithful to the source, each iteration first recomputes
`remaining = deadline - t` and raises the timeout when `remaining <= 0`,
and only then checks presence; `none` means the trace ran out while the
caller was still blocked in `wait`. -/
def wait_for_response (deadline : Int) : List (Int × Option Json) → Option WaitOutcome
  | [] => none
  | (t, r) :: rest =>
      if deadline - t ≤ 0 then some .timeout
      else
        match r with
        | some d => some (.found d)
        | none => wait_for_response deadline rest

/-- Embedding of the frozen dataclass `OBSConnectionConfig`
(src/services/obs_connection.py lines 48-57). Durations are modelled as
rationals. -/
structure OBSConnectionConfig where
  host : String := "127.0.0.1"
  port : Int := 4455
  password : String := ""
  use_ssl : Bool := false
  request_timeout : ℚ := 5
  event_subscriptions : Int := 0
deriving DecidableEq

/-- Embedding of `dataclasses.replace` keyword arguments for
`OBSConnectionConfig`: each field is optionally overridden. -/
structure ConfigPatch where
  host : Option String := none
  port : Option Int := none
  password : Option String := none
  use_ssl : Option Bool := none
  request_timeout : Option ℚ := none
  event_subscriptions : Option Int := none

/-- Embedding of `replace(self._config, **kwargs)`. -/
def replaceConfig (c : OBSConnectionConfig) (p : ConfigPatch) : OBSConnectionConfig :=
  { host := p.host.getD c.host
    port := p.port.getD c.port
    password := p.password.getD c.password
    use_ssl := p.use_ssl.getD c.use_ssl
    request_timeout := p.request_timeout.getD c.request_timeout
    event_subscriptions := p.event_subscriptions.getD c.event_subscriptions }

/-- Connection-relevant mutable state of `OBSConnectionManager`: whether a
websocket object is held (`self._ws is not None`) and whether the
`_identified` event is set. -/
structure ConnState where
  ws : Bool
  identified : Bool

/-- Embedding of `OBSConnectionManager.is_connected`
(src/services/obs_connection.py lines 118-119). -/
def is_connected (s : ConnState) : Bool := s.ws && s.identified

/-- Lifecycle side effects `update_config` can schedule. -/
inductive LifecycleAction where
  | disconnect : LifecycleAction
  | connect : LifecycleAction

/-- State of the manager relevant to `update_config`. -/
structure ManagerState where
  config : OBSConnectionConfig
  conn : ConnState

/-- Embedding of `OBSConnectionManager.update_config`
(src/services/obs_connection.py lines 88-113): the stored config after the
call, the lifecycle actions performed, and the returned config. When the
replaced config equals the current one the method returns `self._config`
unchanged with no side effect; otherwise it stores the new config and, if a
connection-relevant field changed while connected, performs disconnect then
connect (failures being logged, not raised). -/
def update_config (st : ManagerState) (p : ConfigPatch) :
    ManagerState × List LifecycleAction × OBSConnectionConfig :=
  let new_config := replaceConfig st.config p
  if new_config = st.config then
    (st, [], st.config)
  else
    let reconnect_required :=
      new_config.host ≠ st.config.host ∨
      new_config.port ≠ st.config.port ∨
      new_config.use_ssl ≠ st.config.use_ssl ∨
      new_config.password ≠ st.config.password
    let was_connected := is_connected st.conn
    let st2 : ManagerState := { st with config := new_config }
    if was_connected ∧ reconnect_required then
      (st2, [.disconnect, .connect], new_config)
    else
      (st2, [], new_config)

/-- The request frame `send_request` serialises
(src/services/obs_connection.py lines 166-173):
`op 6` with `requestType`, `requestId` and `requestData or { }`. -/
def requestFrame (request_type : String) (request_data : Option Json)
    (request_id : String) : Json :=
  .obj [("op", .num 6),
        ("d", .obj [("requestType", .str request_type),
                    ("requestId", .str request_id),
                    ("requestData", pyOrElse request_data (.obj []))])]

/-- Python `str()` of a JSON value in an f-string, for the fields
interpolated into `OBSRequestError`'s message. -/
def jsonToPyStr : Json → String
  | .null => "None"
  | .bool b => if b then "True" else "False"
  | .num n => toString n
  | .str s => s
  | .arr _ => "[...]"
  | .obj _ => "{...}"

/-- Embedding of `OBSRequestError.__init__`'s message
(src/services/obs_connection.py lines 40-45):
`f"{request_type} failed with code {code}: {message}"` where the message
falls back through `comment`, then `message`, then a fixed default, under
Python `or` truthiness. -/
def requestErrorMessage (request_type : String) (status : Json) : String :=
  let comment := jsonGetD status "comment" .null
  let fallback := if comment.truthy then comment else jsonGetD status "message" .null
  let message := if fallback.truthy then fallback
                 else .str "Unknown OBS request failure"
  let code := match status with
              | .obj kvs => (pyGet kvs "code").getD .null
              | _ => .null
  request_type ++ " failed with code " ++ jsonToPyStr code ++ ": " ++
    jsonToPyStr message

/-- Embedding of the response-processing tail of
`OBSConnectionManager.send_request` (src/services/obs_connection.py lines
178-182): `status = response.get("requestStatus", {})`; raise
`OBSRequestError(request_type, status)` unless `status.get("result", False)`
is truthy; otherwise return `response.get("responseData", {})`. -/
def process_response (request_type : String) (response : Json) : Except Err Json :=
  match response.getAttrD "requestStatus" (.obj []) with
  | .error e => .error e
  | .ok status =>
      match status.getAttrD "result" (.bool false) with
      | .error e => .error e
      | .ok result =>
          if !result.truthy then .error (.requestError request_type status)
          else response.getAttrD "responseData" (.obj [])

/-- Embedding of `OBSConnectionManager.send_request`
(src/services/obs_connection.py lines 153-182), returning the outcome
together with the list of frames written to the socket. `request_id` stands
for the fresh `uuid.uuid4()` correlation id; `arrival` is the environment's
answer delivered through the response registry before the deadline (`none`
when no matching response arrives, in which case `_wait_for_response`
raises `OBSResponseTimeoutError`). -/
def send_request (s : ConnState) (request_type : String)
    (request_data : Option Json) (request_id : String) (arrival : Option Json) :
    Except Err Json × List Json :=
  if !is_connected s then (.error .notConnected, [])
  else
    let frame := requestFrame request_type request_data request_id
    match arrival with
    | none => (.error .responseTimeout, [frame])
    | some response => (process_response request_type response, [frame])

/-- Python `int(x)` restricted to the JSON values the handshake can see. -/
def pyInt (j : Json) : Except Err Int :=
  match j with
  | .num n => .ok n
  | .bool b => .ok (if b then 1 else 0)
  | _ => .error .valueError

/-- Embedding of `_build_auth_response`'s extraction of `challenge` and
`salt` from the Hello authentication payload
(src/services/obs_connection.py lines 375-384): raises
`OBSAuthenticationError` when either is missing (`None`), then hashes the
strings with `build_auth_response`. A non-dict payload raises at `.get`; a
non-string challenge or salt raises at `.encode` / concatenation. -/
def build_auth_response_from (password : String) (auth_payload : Json) :
    Except Err String :=
  match auth_payload.getAttr "challenge" with
  | .error e => .error e
  | .ok challenge =>
      match auth_payload.getAttr "salt" with
      | .error e => .error e
      | .ok salt =>
          match challenge, salt with
          | some (.str c), some (.str s) => .ok (build_auth_response password s c)
          | some _, some _ => .error .attributeError
          | _, _ => .error .authenticationError

/-- Embedding of the Identify-payload construction inside
`OBSConnectionManager._perform_handshake`
(src/services/obs_connection.py lines 209-224): reads `rpcVersion`
(default 1) from the Hello data, builds
`{op:1, d:{rpcVersion, eventSubscriptions}}`, and if the `authentication`
field is truthy, requires a non-empty configured password (else
`OBSAuthenticationError`) and appends the computed `authentication` key. -/
def build_identify (cfg : OBSConnectionConfig) (hello_data : Json) :
    Except Err Json :=
  match pyInt (jsonGetD hello_data "rpcVersion" (.num 1)) with
  | .error e => .error e
  | .ok rpc_version =>
      let base := [("rpcVersion", Json.num rpc_version),
                   ("eventSubscriptions", Json.num cfg.event_subscriptions)]
      let auth := jsonGetD hello_data "authentication" .null
      if auth.truthy then
        if cfg.password = "" then .error .authenticationError
        else
          match build_auth_response_from cfg.password auth with
          | .error e => .error e
          | .ok resp =>
              .ok (.obj [("op", .num 1),
                         ("d", .obj (base ++ [("authentication", .str resp)]))])
      else
        .ok (.obj [("op", .num 1), ("d", .obj base)])

/-- The send-Identify-then-await-Identified tail of
`OBSConnectionManager._perform_handshake`
(src/services/obs_connection.py lines 226-232): once the Identify payload is
built it is written to the socket, and the next frame must carry op 2
(Identified); an error while building the payload means nothing was sent. -/
def handshakeFinish (identify : Except Err Json) (second : Json) :
    Except Err Bool × List Json :=
  match identify with
  | .error e => (.error e, [])
  | .ok identify_payload =>
      match second.getAttr "op" with
      | .error e => (.error e, [identify_payload])
      | .ok op2 =>
          if pyEqInt op2 2 then (.ok true, [identify_payload])
          else (.error .connectionError, [identify_payload])

/-- Embedding of `OBSConnectionManager._perform_handshake`
(src/services/obs_connection.py lines 204-236) given the two frames read
from the socket: returns whether `_identified` was set, paired with the
frames written. The first frame must carry op 0 (Hello); the Identify frame
is sent only after the authentication step succeeds; the second frame must
carry op 2 (Identified). -/
def perform_handshake (cfg : OBSConnectionConfig) (hello second : Json) :
    Except Err Bool × List Json :=
  match hello.getAttr "op" with
  | .error e => (.error e, [])
  | .ok op =>
      if !pyEqInt op 0 then (.error .connectionError, [])
      else handshakeFinish (build_identify cfg (jsonGetD hello "d" (.obj []))) second

/-- Python `str.strip()` (no argument): drop leading and trailing
whitespace. -/
def pyStrip (s : String) : String :=
  ⟨((s.data.dropWhile Char.isWhitespace).reverse.dropWhile
      Char.isWhitespace).reverse⟩

/-- Embedding of `TwitchatEventBroadcaster._format_event_type`
(src/services/twitchat.py lines 76-81): strip the action, return it
unchanged if it contains `":"`, else prefix `namespace + ":"`. -/
def format_event_type (ns action : String) : String :=
  let action := pyStrip action
  if action.data.contains ':' then action
  else ns ++ ":" ++ action

/-- Modelled from the spec's words for `broadcast`'s event-type rule (for
comparison with the source's `format_event_type`): the event type equals the
action unchanged when it already contains `":"`, else
`namespace + ":" + action`. -/
def specEventType (ns action : String) : String :=
  if action.data.contains ':' then action
  else ns ++ ":" ++ action

/-- The `requestData` dict `broadcast` passes to `send_request`
(src/services/twitchat.py lines 50-57). -/
def broadcastRequestData (ns action : String) (payload : Option Json) :
    Json :=
  .obj [("eventType", .str (format_event_type ns action)),
        ("eventData", pyOrElse payload (.obj []))]

/-- Embedding of `TwitchatEventBroadcaster.broadcast`
(src/services/twitchat.py lines 34-58): raises `ValueError` on an empty
action, else delegates to
`send_request "BroadcastCustomEvent" {eventType, eventData}`. Returns the
outcome and the frames written. -/
def broadcast (s : ConnState) (ns action : String)
    (payload : Option Json) (request_id : String) (arrival : Option Json) :
    Except Err Json × List Json :=
  if action = "" then (.error .valueError, [])
  else
    send_request s "BroadcastCustomEvent"
      (some (broadcastRequestData ns action payload)) request_id arrival

/-- The error kinds `safe_broadcast` catches
(src/services/twitchat.py line 71): `OBSNotConnectedError`,
`OBSRequestError`, `OBSResponseTimeoutError`. -/
def caughtBySafeBroadcast : Err → Bool
  | .notConnected => true
  | .responseTimeout => true
  | .requestError _ _ => true
  | _ => false

/-- Embedding of `TwitchatEventBroadcaster.safe_broadcast`
(src/services/twitchat.py lines 60-74): returns `true` on success, logs and
returns `false` on the three caught error kinds, and re-raises anything
else. -/
def safe_broadcast (s : ConnState) (ns action : String)
    (payload : Option Json) (request_id : String) (arrival : Option Json) :
    Except Err Bool :=
  match (broadcast s ns action payload request_id arrival).1 with
  | .ok _ => .ok true
  | .error e => if caughtBySafeBroadcast e then .ok false else .error e

/-- NIST test vector: SHA-256 of the empty message. -/
theorem sha256_empty :
    sha256 [] =
      [227, 176, 196, 66, 152, 252, 28, 20, 154, 251, 244, 200, 153, 111,
       185, 36, 39, 174, 65, 228, 100, 155, 147, 76, 164, 149, 153, 27,
       120, 82, 184, 85] := by decide

/-- NIST test vector: SHA-256 of `"abc"`. -/
theorem sha256_abc :
    sha256 (utf8Encode "abc") =
      [186, 120, 22, 191, 143, 1, 207, 234, 65, 65, 64, 222, 93, 174, 34, 35,
       176, 3, 97, 163, 150, 23, 122, 156, 180, 16, 255, 97, 242, 0, 21,
       173] := by decide

/-- C1: `_build_auth_response` is a pure function of
`(password, challenge, salt)` equal to
`base64(SHA256(base64(SHA256(password + salt)) + challenge))`, the
intermediate secret being base64-encoded before the second hash; the golden
vector password `"pw"`, salt `"s"`, challenge `"c"` reproduces that formula's
value exactly. -/
theorem build_auth_response_correct :
    (∀ password salt challenge : String,
        build_auth_response password salt challenge =
          specAuthResponse password salt challenge) ∧
    build_auth_response "pw" "s" "c" =
      "xMPN4g9M0+1V8ZyBd8LT5TKpVDn9gISLBuOsmcvzsaU=" :=
  ⟨fun _ _ _ => rfl, by decide⟩

/-- C2 counterexample: at a wake occurring exactly at the deadline with the
response already stored, `_wait_for_response` raises the timeout error
instead of returning the stored entry, because the source checks
`remaining <= 0` before checking presence. -/
theorem wait_for_response_presence_cex :
    wait_for_response 0 [(0, some Json.null)] = some WaitOutcome.timeout ∧
    wait_for_response 0 [(0, some Json.null)] ≠
      some (WaitOutcome.found Json.null) := by
  refine ⟨rfl, fun h => ?_⟩
  rw [show wait_for_response 0 [(0, some Json.null)] = some WaitOutcome.timeout
        from rfl] at h
  simp at h

/-- C2 (amended): each iteration of `_wait_for_response` first recomputes
the remaining time and raises the timeout error when the deadline is
reached, even if the entry is present; only with time remaining does it
remove and return a present entry, and otherwise it waits and loops with
the remaining time recomputed at the next wake. -/
theorem wait_for_response_amended (d t : Int) (r : Option Json)
    (rest : List (Int × Option Json)) :
    (d - t ≤ 0 →
      wait_for_response d ((t, r) :: rest) = some WaitOutcome.timeout) ∧
    (0 < d - t → ∀ x, r = some x →
      wait_for_response d ((t, r) :: rest) = some (WaitOutcome.found x)) ∧
    (0 < d - t → r = none →
      wait_for_response d ((t, r) :: rest) = wait_for_response d rest) := by
  refine ⟨fun h => ?_, fun h x hx => ?_, fun h hn => ?_⟩
  · simp [wait_for_response, h]
  · subst hx
    simp [wait_for_response, show ¬(d - t ≤ 0) by omega]
  · subst hn
    simp [wait_for_response, show ¬(d - t ≤ 0) by omega]

/-- Witness for `wait_for_response_amended` at a concrete wake with time
remaining and the entry present. -/
theorem wait_for_response_amended_witness :
    wait_for_response 5 [((2 : Int), some (Json.str "data"))] =
      some (WaitOutcome.found (Json.str "data")) :=
  (wait_for_response_amended 5 2 (some (Json.str "data")) []).2.1
    (by decide) (Json.str "data") rfl

/-- C3: the receiver loop survives text that is not valid JSON and keeps
processing later frames, but a frame of valid JSON that is not an object
(here the JSON text `5`) raises `AttributeError` inside `_handle_message`,
which sits outside the loop's `try` block, terminating the loop and dropping
the subsequent valid frame. -/
theorem receiver_loop_nonobject_bug :
    receiver_loop
        [Frame.invalidText,
         Frame.parsed (.obj [("op", .num 7),
                             ("d", .obj [("requestId", Json.str "id1")])])] [] =
      .ok [(Json.str "id1", Json.obj [("requestId", Json.str "id1")])] ∧
    receiver_loop
        [Frame.parsed (.num 5),
         Frame.parsed (.obj [("op", .num 7),
                             ("d", .obj [("requestId", Json.str "id1")])])] [] =
      .error .attributeError :=
  ⟨rfl, rfl⟩

/-- C10: for a Response (op 7) or BatchResponse (op 8) frame, `_handle_message`
leaves the registry unchanged and wakes no waiters when the payload's
`requestId` is absent or falsy (such as the empty string), and stores the
payload and notifies all waiters exactly when a truthy (non-empty) id is
present. -/
theorem response_registry_requires_id (op : Int) (dkvs : List (String × Json))
    (reg : Registry) (hop : op = 7 ∨ op = 8) :
    (pyGet dkvs "requestId" = none →
      handle_message (.obj [("op", .num op), ("d", .obj dkvs)]) reg =
        .ok ⟨reg, false⟩) ∧
    (∀ rid, pyGet dkvs "requestId" = some rid → rid.truthy = false →
      handle_message (.obj [("op", .num op), ("d", .obj dkvs)]) reg =
        .ok ⟨reg, false⟩) ∧
    (∀ rid, pyGet dkvs "requestId" = some rid → rid.truthy = true →
      handle_message (.obj [("op", .num op), ("d", .obj dkvs)]) reg =
        .ok ⟨regInsert reg rid (.obj dkvs), true⟩) := by
  have bridge : handle_message (.obj [("op", .num op), ("d", .obj dkvs)]) reg =
      handleResponseFrame (.obj dkvs) reg := by
    rcases hop with h | h <;> subst h <;> rfl
  refine ⟨fun h => ?_, fun rid h ht => ?_, fun rid h ht => ?_⟩
  · rw [bridge]; simp [handleResponseFrame, Json.getAttr, h]
  · rw [bridge]; simp [handleResponseFrame, Json.getAttr, h, ht]
  · rw [bridge]; simp [handleResponseFrame, Json.getAttr, h, ht]

/-- Witness for `response_registry_requires_id`: an op-7 frame with a
non-empty `requestId` is stored and waiters are notified. -/
theorem response_registry_requires_id_witness :
    handle_message
        (.obj [("op", .num 7), ("d", .obj [("requestId", Json.str "abc")])])
        [] =
      .ok ⟨regInsert [] (Json.str "abc")
            (.obj [("requestId", Json.str "abc")]), true⟩ :=
  (response_registry_requires_id 7 [("requestId", Json.str "abc")] []
    (Or.inl rfl)).2.2 (Json.str "abc") rfl rfl

/-- C4: when the response stored for a request carries
`requestStatus.result = false`, `send_request`'s response processing fails
with `OBSRequestError` carrying that protocol status (for status
`{result:false, code:400, comment:"bad"}` the error message interpolates
code 400 and comment "bad"); when `result` is `true` it returns the
response's `responseData` payload. -/
theorem send_request_error_status (request_type : String)
    (kvs skvs : List (String × Json))
    (hs : pyGet kvs "requestStatus" = some (.obj skvs)) :
    (pyGetD skvs "result" (.bool false) = .bool false →
      process_response request_type (.obj kvs) =
        .error (.requestError request_type (.obj skvs))) ∧
    (pyGetD skvs "result" (.bool false) = .bool true →
      process_response request_type (.obj kvs) =
        .ok (pyGetD kvs "responseData" (.obj []))) ∧
    requestErrorMessage "BroadcastCustomEvent"
        (.obj [("result", Json.bool false), ("code", Json.num 400),
               ("comment", Json.str "bad")]) =
      "BroadcastCustomEvent failed with code 400: bad" := by
  refine ⟨fun h => ?_, fun h => ?_, by decide⟩
  · have h' : (pyGet skvs "result").getD (Json.bool false) = Json.bool false := h
    simp [process_response, Json.getAttrD, pyGetD, hs, h', Json.truthy]
  · have h' : (pyGet skvs "result").getD (Json.bool false) = Json.bool true := h
    simp [process_response, Json.getAttrD, pyGetD, hs, h', Json.truthy]

/-- Witness for `send_request_error_status`: a concrete failed response
yields the `OBSRequestError` carrying its status. -/
theorem send_request_error_status_witness :
    process_response "BroadcastCustomEvent"
        (.obj [("requestStatus",
                .obj [("result", Json.bool false), ("code", Json.num 400),
                      ("comment", Json.str "bad")])]) =
      .error (.requestError "BroadcastCustomEvent"
        (.obj [("result", Json.bool false), ("code", Json.num 400),
               ("comment", Json.str "bad")])) :=
  (send_request_error_status "BroadcastCustomEvent"
    [("requestStatus",
      .obj [("result", Json.bool false), ("code", Json.num 400),
            ("comment", Json.str "bad")])]
    [("result", Json.bool false), ("code", Json.num 400),
     ("comment", Json.str "bad")] rfl).1 rfl

/-- C5: `send_request` fails with `OBSNotConnectedError` and writes no frame
whenever the manager is not Identified; when Identified it writes exactly
the envelope `{op:6, d:{requestType, requestId, requestData or {}}}` keyed
by the freshly generated correlation id. -/
theorem send_request_gate (s : ConnState) (request_type : String)
    (request_data : Option Json) (request_id : String)
    (arrival : Option Json) :
    (is_connected s = false →
      send_request s request_type request_data request_id arrival =
        (.error .notConnected, [])) ∧
    (is_connected s = true →
      (send_request s request_type request_data request_id arrival).2 =
        [.obj [("op", .num 6),
               ("d", .obj [("requestType", .str request_type),
                           ("requestId", .str request_id),
                           ("requestData", pyOrElse request_data (.obj []))])]]) := by
  refine ⟨fun h => ?_, fun h => ?_⟩
  · simp [send_request, h]
  · cases arrival <;> simp [send_request, h, requestFrame]

/-- Witness for `send_request_gate`: a disconnected manager rejects the call
with no frame written. -/
theorem send_request_gate_witness :
    send_request ⟨false, false⟩ "GetVersion" none "rid-1" none =
      (.error .notConnected, []) :=
  (send_request_gate ⟨false, false⟩ "GetVersion" none "rid-1" none).1 rfl

/-- C6: `update_config` called with values producing a configuration equal
to the current one performs no lifecycle action, leaves the stored
configuration and connection state unchanged, and returns the stored
configuration value itself. -/
theorem update_config_noop (st : ManagerState) (p : ConfigPatch)
    (h : replaceConfig st.config p = st.config) :
    update_config st p = (st, [], st.config) := by
  simp [update_config, h]

/-- Witness for `update_config_noop`: an empty patch on the default
configuration. -/
theorem update_config_noop_witness :
    update_config ⟨{}, ⟨true, true⟩⟩ {} = (⟨{}, ⟨true, true⟩⟩, [], {}) :=
  update_config_noop ⟨{}, ⟨true, true⟩⟩ {} rfl

/-- C7: `safe_broadcast` returns `false` exactly when `broadcast` raises one
of the three caught error kinds (not-connected, request-failed,
response-timeout), returns `true` when `broadcast` succeeds, and re-raises
every other error kind; an empty action propagates as `ValueError`, while
calling it not connected yields `false` without raising. -/
theorem safe_broadcast_error_policy (s : ConnState) (ns action : String)
    (payload : Option Json) (request_id : String) (arrival : Option Json) :
    (safe_broadcast s ns action payload request_id arrival = .ok false ↔
      ∃ e, (broadcast s ns action payload request_id arrival).1 = .error e ∧
        caughtBySafeBroadcast e = true) ∧
    (∀ v, (broadcast s ns action payload request_id arrival).1 = .ok v →
      safe_broadcast s ns action payload request_id arrival = .ok true) ∧
    (∀ e, (broadcast s ns action payload request_id arrival).1 = .error e →
      caughtBySafeBroadcast e = false →
      safe_broadcast s ns action payload request_id arrival = .error e) ∧
    (action = "" →
      safe_broadcast s ns action payload request_id arrival =
        .error .valueError) ∧
    (is_connected s = false → action ≠ "" →
      safe_broadcast s ns action payload request_id arrival = .ok false) := by
  refine ⟨?_, fun v hv => ?_, fun e he hc => ?_, fun ha => ?_, fun hc ha => ?_⟩
  · cases hb : (broadcast s ns action payload request_id arrival).1 with
    | ok v => simp [safe_broadcast, hb]
    | error e => cases hce : caughtBySafeBroadcast e <;>
        simp [safe_broadcast, hb, hce]
  · simp [safe_broadcast, hv]
  · simp [safe_broadcast, he, hc]
  · subst ha
    simp [safe_broadcast, broadcast, caughtBySafeBroadcast]
  · simp [safe_broadcast, broadcast, send_request, ha, hc, caughtBySafeBroadcast]

/-- Witness for `safe_broadcast_error_policy`: broadcasting while not
connected returns `false` and does not raise. -/
theorem safe_broadcast_error_policy_witness :
    safe_broadcast ⟨false, false⟩ "twitchat" "GREET_FEED_READ_ALL" none
        "rid" none = .ok false :=
  (safe_broadcast_error_policy ⟨false, false⟩ "twitchat" "GREET_FEED_READ_ALL"
    none "rid" none).2.2.2.2 rfl (by decide)

/-- C8: during the handshake, a Hello frame carrying a truthy
`authentication` challenge with an empty configured password fails with
`OBSAuthenticationError` before any Identify frame is sent; with no
`authentication` field the Identify frame is sent and its `d` payload has no
`authentication` key. -/
theorem handshake_auth_gate (cfg : OBSConnectionConfig)
    (dkvs : List (String × Json)) (second : Json) (v : Int)
    (hrpc : pyInt (jsonGetD (.obj dkvs) "rpcVersion" (.num 1)) = .ok v) :
    ((jsonGetD (.obj dkvs) "authentication" .null).truthy = true →
      cfg.password = "" →
      perform_handshake cfg (.obj [("op", .num 0), ("d", .obj dkvs)]) second =
        (.error .authenticationError, [])) ∧
    (pyGet dkvs "authentication" = none →
      (perform_handshake cfg (.obj [("op", .num 0), ("d", .obj dkvs)])
          second).2 =
        [.obj [("op", .num 1),
               ("d", .obj [("rpcVersion", .num v),
                           ("eventSubscriptions",
                            .num cfg.event_subscriptions)])]] ∧
      pyGet [("rpcVersion", Json.num v),
             ("eventSubscriptions", Json.num cfg.event_subscriptions)]
            "authentication" = none) := by
  have bridge :
      perform_handshake cfg (.obj [("op", .num 0), ("d", .obj dkvs)]) second =
        handshakeFinish (build_identify cfg (.obj dkvs)) second := rfl
  refine ⟨fun hauth hpw => ?_, fun hnone => ?_⟩
  · have hbi : build_identify cfg (.obj dkvs) = .error .authenticationError := by
      simp [build_identify, hrpc, hauth, hpw]
    rw [bridge, hbi]; rfl
  · have hbi : build_identify cfg (.obj dkvs) =
        .ok (.obj [("op", .num 1),
                   ("d", .obj [("rpcVersion", .num v),
                               ("eventSubscriptions",
                                .num cfg.event_subscriptions)])]) := by
      have hrpc' : pyInt ((pyGet dkvs "rpcVersion").getD (Json.num 1)) =
          .ok v := hrpc
      simp [build_identify, hrpc', jsonGetD, pyGetD, hnone, Json.truthy]
    refine ⟨?_, rfl⟩
    rw [bridge, hbi]
    cases hso : second.getAttr "op" with
    | error e => simp [handshakeFinish, hso]
    | ok op2 => cases hpe : pyEqInt op2 2 <;> simp [handshakeFinish, hso, hpe]

/-- Witness for `handshake_auth_gate`: a Hello demanding authentication with
the default (empty) password fails without sending Identify. -/
theorem handshake_auth_gate_witness :
    perform_handshake {}
        (.obj [("op", .num 0),
               ("d", .obj [("authentication",
                            .obj [("challenge", Json.str "c"),
                                  ("salt", Json.str "s")])])])
        .null =
      (.error .authenticationError, []) :=
  (handshake_auth_gate {}
    [("authentication",
      .obj [("challenge", Json.str "c"), ("salt", Json.str "s")])]
    .null 1 rfl).1 rfl rfl

/-- C9 counterexample: `_format_event_type` strips the action first, so for
the action `" a:b "` (which contains `":"`) the event type is `"a:b"`, not
the action unchanged, and for `" read "` it is `"twitchat:read"`, not
`namespace + ":" + action`. -/
theorem format_event_type_strip_cex :
    format_event_type "twitchat" " a:b " = "a:b" ∧
    format_event_type "twitchat" " a:b " ≠ " a:b " ∧
    format_event_type "twitchat" " read " = "twitchat:read" ∧
    format_event_type "twitchat" " read " ≠ "twitchat" ++ ":" ++ " read " :=
  ⟨by decide, by decide, by decide, by decide⟩

/-- C9 (amended): `broadcast` builds the event type from the
whitespace-stripped action — the stripped action unchanged if it contains
`":"`, else `namespace + ":" + stripped action — and passes it as
`eventType` in a `BroadcastCustomEvent` request whose `eventData` is the
payload or the empty mapping. -/
theorem broadcast_event_type_amended (s : ConnState) (ns action : String)
    (payload : Option Json) (request_id : String) (arrival : Option Json) :
    format_event_type ns action = specEventType ns (pyStrip action) ∧
    (action ≠ "" →
      broadcast s ns action payload request_id arrival =
        send_request s "BroadcastCustomEvent"
          (some (.obj [("eventType", .str (format_event_type ns action)),
                       ("eventData", pyOrElse payload (.obj []))]))
          request_id arrival) := by
  refine ⟨rfl, fun h => ?_⟩
  simp [broadcast, h, broadcastRequestData]

/-- Witness for `broadcast_event_type_amended` at a concrete action. -/
theorem broadcast_event_type_amended_witness :
    broadcast ⟨true, true⟩ "twitchat" "GREET_FEED_READ_ALL" none "rid" none =
      send_request ⟨true, true⟩ "BroadcastCustomEvent"
        (some (.obj [("eventType",
                      .str (format_event_type "twitchat" "GREET_FEED_READ_ALL")),
                     ("eventData", pyOrElse none (.obj []))])) "rid" none :=
  (broadcast_event_type_amended ⟨true, true⟩ "twitchat" "GREET_FEED_READ_ALL"
    none "rid" none).2 (by decide)
